import Mathlib

/-!
Verification of the two-phase comparison test orchestrator
`SystemTestsCompareTwo` (CIME/SystemTests/system_tests_compare_two.py).

The class is embedded shallowly:
* the constructor state is `TestState`; the constructor itself is `init`,
  returning `Except ConfigError TestState`;
* the observable side effects of `run` and `build` (calls to collaborator
  primitives and overridable hooks) are recorded as a trace of `Event`s,
  mirroring the call log used by the repository's own unit tests;
* outcomes of the collaborator operations `_run` and
  `_component_compare_test` are supplied by a `RunOutcomes` oracle;
* the persisted-snapshot store queried by `saved_xml_file_exists` and
  written by `save_xml_file` is a map `FsState`.
-/

namespace CompareTwo

/-- Observable calls made by the orchestrator, mirroring the call log of the
repository's unit-test fake (`Call(method, arguments)`). -/
inductive Event where
  | run_common_setup : Event
  | run_one_setup : Event
  | run_two_setup : Event
  | stage_saved_pes_file (suffix : String) : Event
  | stage_saved_build_files (suffix : String) : Event
  | load_staged_xml_files (modified_pes : Bool) : Event
  | runPhase (suffix : String) : Event
  | component_compare_test (suffix1 suffix2 : String) : Event
  | restore_or_save_xml_file (xml_file suffix : String) : Event
  | read_xml : Event
  | adjust_pes_for_run_one : Event
  | adjust_pes_for_run_two : Event
  | flush : Event
  | save_xml_file (xml_file suffix : String) : Event
  | pre_build : Event
  | build_one_setup : Event
  | build_two_setup : Event
  | common_build (sharedlib_only model_only : Bool) : Event
  | save_build_files (suffix : String) : Event
deriving DecidableEq, Repr

/-- suffix used for saving original versions of files
(`SystemTestsCompareTwo.ORIGINAL_SUFFIX`). -/
def ORIGINAL_SUFFIX : String := "original"

/-- The per-instance state initialised by `SystemTestsCompareTwo.__init__`. -/
structure TestState where
  two_builds_for_sharedlib : Bool
  two_builds_for_model : Bool
  runs_have_different_pe_settings : Bool
  run_one_suffix : String
  run_two_suffix : String
  run_one_description : String
  run_two_description : String
  status_run1 : String
  status_run2 : String
  status_compare : String
deriving DecidableEq, Repr

/-- The characters removed by Python's `str.rstrip()` with no argument
(restricted to `string.whitespace`, the ASCII whitespace characters). -/
def pyIsSpace (c : Char) : Bool :=
  c = ' ' || c = '\t' || c = '\n' || c = '\r' || c = '\x0b' || c = '\x0c'

/-- Python's `str.rstrip()`: remove trailing whitespace characters. -/
def pyRstrip (s : String) : String :=
  ⟨(s.data.reverse.dropWhile pyIsSpace).reverse⟩

/-- The configuration errors signalled by the `expect` calls in
`SystemTestsCompareTwo.__init__`. -/
inductive ConfigError where
  | equalSuffixes : ConfigError
  | runOneIsOriginal : ConfigError
  | runTwoIsOriginal : ConfigError
deriving DecidableEq, Repr

/-- `SystemTestsCompareTwo.__init__`: stores the flags, fixes
`run_one_suffix = 'base'`, right-strips `run_two_suffix`, checks the three
`expect`s in source order, and initialises the three statuses to
`"NOT RUN"`. -/
def init (two_builds_for_sharedlib two_builds_for_model
    runs_have_different_pe_settings : Bool)
    (run_two_suffix : String)
    (run_one_description run_two_description : String) :
    Except ConfigError TestState :=
  let run_one_suffix : String := "base"
  let run_two_suffix := pyRstrip run_two_suffix
  if run_two_suffix = run_one_suffix then
    .error .equalSuffixes
  else if run_one_suffix = ORIGINAL_SUFFIX then
    .error .runOneIsOriginal
  else if run_two_suffix = ORIGINAL_SUFFIX then
    .error .runTwoIsOriginal
  else
    .ok { two_builds_for_sharedlib := two_builds_for_sharedlib
          two_builds_for_model := two_builds_for_model
          runs_have_different_pe_settings := runs_have_different_pe_settings
          run_one_suffix := run_one_suffix
          run_two_suffix := run_two_suffix
          run_one_description := run_one_description
          run_two_description := run_two_description
          status_run1 := "NOT RUN"
          status_run2 := "NOT RUN"
          status_compare := "NOT RUN" }

/-- `SystemTestsCompareTwo._has_two_executables`. -/
def _has_two_executables (st : TestState) : Bool :=
  st.two_builds_for_sharedlib || st.two_builds_for_model

/-- Outcomes of the collaborator operations invoked by `run`:
`_run(suffix)` and `_component_compare_test(suffix1, suffix2)`. -/
structure RunOutcomes where
  runPasses : String → Bool
  comparePasses : String → String → Bool

/-- `SystemTestsCompareTwo.run`: the two-phase run with early return on
failure. Returns the updated state, the trace of calls, and the boolean
result. -/
def run (st : TestState) (oc : RunOutcomes) : TestState × List Event × Bool :=
  -- First run
  let t1 : List Event :=
    [.run_common_setup, .run_one_setup]
    ++ (if st.runs_have_different_pe_settings then
          [.stage_saved_pes_file st.run_one_suffix] else [])
    ++ (if _has_two_executables st then
          [.stage_saved_build_files st.run_one_suffix] else [])
    ++ (if st.runs_have_different_pe_settings || _has_two_executables st then
          [.load_staged_xml_files st.runs_have_different_pe_settings] else [])
    ++ [.runPhase st.run_one_suffix]
  if oc.runPasses st.run_one_suffix then
    let st := { st with status_run1 := "PASS" }
    -- Second run
    let t2 : List Event := t1
      ++ [.run_common_setup, .run_two_setup]
      ++ (if st.runs_have_different_pe_settings then
            [.stage_saved_pes_file st.run_two_suffix] else [])
      ++ (if _has_two_executables st then
            [.stage_saved_build_files st.run_two_suffix] else [])
      ++ (if st.runs_have_different_pe_settings || _has_two_executables st then
            [.load_staged_xml_files st.runs_have_different_pe_settings] else [])
      ++ [.runPhase st.run_two_suffix]
    if oc.runPasses st.run_two_suffix then
      let st := { st with status_run2 := "PASS" }
      -- Compare results
      let t3 : List Event := t2
        ++ [.component_compare_test st.run_one_suffix st.run_two_suffix]
      if oc.comparePasses st.run_one_suffix st.run_two_suffix then
        ({ st with status_compare := "PASS" }, t3, true)
      else
        ({ st with status_compare := "FAIL" }, t3, false)
    else
      ({ st with status_run2 := "FAIL" }, t2, false)
  else
    ({ st with status_run1 := "FAIL" }, t1, false)

/-- Modelled from the spec: the persisted snapshot store behind the
collaborator operations `saved_xml_file_exists` and `save_xml_file`
(CIME utilities outside this module; spec section 6: `snapshotExists(kind,
suffix)` is the idempotency check and `snapshot(kind, suffix)` saves a
configuration artifact, after which it exists). `savedExists f s` tells
whether a snapshot of xml file `f` tagged with suffix `s` exists. -/
structure FsState where
  savedExists : String → String → Bool

/-- Modelled from the spec: the collaborator operation
`save_xml_file(caseroot, xml_file, suffix)` makes the (xml_file, suffix)
snapshot exist. -/
def saveXmlFileFs (fs : FsState) (xml_file suffix : String) : FsState :=
  ⟨fun f s => if f = xml_file ∧ s = suffix then true else fs.savedExists f s⟩

/-- Modelled from the spec: the data returned by the collaborator operation
`restore_or_save_xml_file` — whether the restore "actually replaced live
state" (spec section 6), given per xml file. -/
structure BuildEnv where
  restoreReplaced : String → Bool

/-- `SystemTestsCompareTwo._pre_build_restore_or_save_xml_files`: restore or
save the original versions of `env_mach_pes` (when the runs have different
PE settings) and `env_build` (when there are two executables); if either
restore replaced live state, re-read the case xml. After
`restore_or_save_xml_file`, the "original"-tagged snapshot exists either
way. -/
def _pre_build_restore_or_save_xml_files (st : TestState) (env : BuildEnv)
    (fs : FsState) : FsState × List Event :=
  let (env_mach_pes_restored, fs, t1) :=
    if st.runs_have_different_pe_settings then
      (env.restoreReplaced "env_mach_pes",
       saveXmlFileFs fs "env_mach_pes" ORIGINAL_SUFFIX,
       [Event.restore_or_save_xml_file "env_mach_pes" ORIGINAL_SUFFIX])
    else
      (false, fs, ([] : List Event))
  let (env_build_restored, fs, t2) :=
    if _has_two_executables st then
      (env.restoreReplaced "env_build",
       saveXmlFileFs fs "env_build" ORIGINAL_SUFFIX,
       [Event.restore_or_save_xml_file "env_build" ORIGINAL_SUFFIX])
    else
      (false, fs, ([] : List Event))
  let t3 : List Event :=
    if env_mach_pes_restored || env_build_restored then [Event.read_xml] else []
  (fs, t1 ++ t2 ++ t3)

/-- `SystemTestsCompareTwo._create_pe_files`: for each run, if no
`env_mach_pes` snapshot tagged with that run's suffix exists yet, invoke
the run's PE-adjustment hook, flush the case, and save the snapshot under
that suffix. -/
def _create_pe_files (st : TestState) (fs : FsState) : FsState × List Event :=
  let (fs, t1) :=
    if fs.savedExists "env_mach_pes" st.run_one_suffix then
      (fs, ([] : List Event))
    else
      (saveXmlFileFs fs "env_mach_pes" st.run_one_suffix,
       [Event.adjust_pes_for_run_one, Event.flush,
        Event.save_xml_file "env_mach_pes" st.run_one_suffix])
  let (fs, t2) :=
    if fs.savedExists "env_mach_pes" st.run_two_suffix then
      (fs, ([] : List Event))
    else
      (saveXmlFileFs fs "env_mach_pes" st.run_two_suffix,
       [Event.adjust_pes_for_run_two, Event.flush,
        Event.save_xml_file "env_mach_pes" st.run_two_suffix])
  (fs, t1 ++ t2)

/-- The error raised by the final `else` branch of
`SystemTestsCompareTwo._needs_two_builds`
(`ValueError('Invalid for both sharedlib_only and model_only to be set')`). -/
inductive BuildError where
  | invalidScope : BuildError
deriving DecidableEq, Repr

/-- `SystemTestsCompareTwo._needs_two_builds`, with the `if`/`elif`/`elif`/
`else` chain translated branch for branch; the `else` branch raises
`ValueError`, modelled as `Except.error`. -/
def _needs_two_builds (st : TestState) (sharedlib_only model_only : Bool) :
    Except BuildError Bool :=
  if !sharedlib_only && !model_only then
    -- building both at once
    .ok (st.two_builds_for_sharedlib || st.two_builds_for_model)
  else if sharedlib_only then
    .ok st.two_builds_for_sharedlib
  else if model_only then
    .ok st.two_builds_for_model
  else
    .error .invalidScope

/-- `SystemTestsCompareTwo._do_two_builds`: two build passes, each staging
that run's PE file (when the runs have different PE settings), invoking
that pass's build-setup hook, performing the underlying
`SystemTestsCommon.build`, and saving the build files under that run's
suffix. -/
def _do_two_builds (st : TestState) (sharedlib_only model_only : Bool) :
    List Event :=
  -- First build
  (if st.runs_have_different_pe_settings then
     [Event.stage_saved_pes_file st.run_one_suffix,
      Event.load_staged_xml_files true] else [])
  ++ [Event.build_one_setup,
      Event.common_build sharedlib_only model_only,
      Event.save_build_files st.run_one_suffix]
  -- Second build
  ++ (if st.runs_have_different_pe_settings then
        [Event.stage_saved_pes_file st.run_two_suffix,
         Event.load_staged_xml_files true] else [])
  ++ [Event.build_two_setup,
      Event.common_build sharedlib_only model_only,
      Event.save_build_files st.run_two_suffix]

/-- `SystemTestsCompareTwo.build`: restore-or-save step, optional PE-file
creation, the `_pre_build` hook, then either two builds or a single build
(staging run one's PE file first when PE settings differ). -/
def build (st : TestState) (env : BuildEnv) (fs : FsState)
    (sharedlib_only model_only : Bool) :
    Except BuildError (FsState × List Event) :=
  let (fs, t1) := _pre_build_restore_or_save_xml_files st env fs
  let (fs, t2) :=
    if st.runs_have_different_pe_settings then _create_pe_files st fs
    else (fs, ([] : List Event))
  let t3 : List Event := [Event.pre_build]
  match _needs_two_builds st sharedlib_only model_only with
  | .error e => .error e
  | .ok true =>
      .ok (fs, t1 ++ t2 ++ t3 ++ _do_two_builds st sharedlib_only model_only)
  | .ok false =>
      -- Two different PE settings, yet only one build: arbitrarily use the
      -- first run's PE settings for the build
      let t4 : List Event :=
        if st.runs_have_different_pe_settings then
          [Event.stage_saved_pes_file st.run_one_suffix,
           Event.load_staged_xml_files true] else []
      .ok (fs, t1 ++ t2 ++ t3 ++ t4
               ++ [Event.common_build sharedlib_only model_only])

/-- A concrete instance (all flags false, default suffixes, fresh statuses),
as produced by `init false false false "test" "" ""`; used to instantiate
theorems at concrete inputs. -/
def sampleState : TestState :=
  { two_builds_for_sharedlib := false
    two_builds_for_model := false
    runs_have_different_pe_settings := false
    run_one_suffix := "base"
    run_two_suffix := "test"
    run_one_description := ""
    run_two_description := ""
    status_run1 := "NOT RUN"
    status_run2 := "NOT RUN"
    status_compare := "NOT RUN" }

/-- An outcome oracle under which every execution and comparison passes. -/
def allPass : RunOutcomes := ⟨fun _ => true, fun _ _ => true⟩

/-- An outcome oracle under which every execution fails. -/
def allFail : RunOutcomes := ⟨fun _ => false, fun _ _ => false⟩

/-- Claim C1: phase-two's execution is invoked iff phase-one's execution
succeeded; the comparison is invoked iff both phase executions succeeded;
when phase one fails no phase-two setup, staging, or execution side effect
occurs (the common-setup hook runs only once and nothing tagged with
phase-two's suffix appears); when phase two fails the comparison is not
invoked. -/
theorem run_gating (st : TestState) (oc : RunOutcomes)
    (h : st.run_one_suffix ≠ st.run_two_suffix) :
    ((Event.runPhase st.run_two_suffix ∈ (run st oc).2.1) ↔
       oc.runPasses st.run_one_suffix = true) ∧
    ((Event.component_compare_test st.run_one_suffix st.run_two_suffix ∈
        (run st oc).2.1) ↔
       (oc.runPasses st.run_one_suffix = true ∧
        oc.runPasses st.run_two_suffix = true)) ∧
    (oc.runPasses st.run_one_suffix = false →
       Event.run_two_setup ∉ (run st oc).2.1 ∧
       Event.stage_saved_pes_file st.run_two_suffix ∉ (run st oc).2.1 ∧
       Event.stage_saved_build_files st.run_two_suffix ∉ (run st oc).2.1 ∧
       Event.runPhase st.run_two_suffix ∉ (run st oc).2.1 ∧
       (run st oc).2.1.count Event.run_common_setup = 1) ∧
    (oc.runPasses st.run_two_suffix = false →
       ∀ a b, Event.component_compare_test a b ∉ (run st oc).2.1) := by
  have h' : st.run_two_suffix ≠ st.run_one_suffix := fun e => h e.symm
  cases h1 : oc.runPasses st.run_one_suffix <;>
    cases h2 : oc.runPasses st.run_two_suffix <;>
    cases hc : oc.comparePasses st.run_one_suffix st.run_two_suffix <;>
    cases hpe : st.runs_have_different_pe_settings <;>
    cases hsl : st.two_builds_for_sharedlib <;>
    cases hm : st.two_builds_for_model <;>
    simp_all [run, _has_two_executables, List.count_append, List.count_cons]

/-- Witness for C1 at a concrete instance: with an all-pass oracle,
phase-two's execution call appears in the trace. -/
theorem run_gating_witness :
    Event.runPhase "test" ∈ (run sampleState allPass).2.1 :=
  (run_gating sampleState allPass (by decide)).1.mpr rfl

/-- Claim C2: `run` returns true iff phase-one execution, phase-two
execution, and the comparison all succeed, and the final three statuses
are exactly (FAIL, NOT RUN, NOT RUN) / (PASS, FAIL, NOT RUN) /
(PASS, PASS, FAIL) / (PASS, PASS, PASS) according to where the first
failure occurred. -/
theorem run_result_and_statuses (st : TestState) (oc : RunOutcomes)
    (h1 : st.status_run1 = "NOT RUN") (h2 : st.status_run2 = "NOT RUN")
    (h3 : st.status_compare = "NOT RUN") :
    ((run st oc).2.2 =
       (oc.runPasses st.run_one_suffix && oc.runPasses st.run_two_suffix &&
        oc.comparePasses st.run_one_suffix st.run_two_suffix)) ∧
    (oc.runPasses st.run_one_suffix = false →
       (run st oc).1.status_run1 = "FAIL" ∧
       (run st oc).1.status_run2 = "NOT RUN" ∧
       (run st oc).1.status_compare = "NOT RUN") ∧
    (oc.runPasses st.run_one_suffix = true →
     oc.runPasses st.run_two_suffix = false →
       (run st oc).1.status_run1 = "PASS" ∧
       (run st oc).1.status_run2 = "FAIL" ∧
       (run st oc).1.status_compare = "NOT RUN") ∧
    (oc.runPasses st.run_one_suffix = true →
     oc.runPasses st.run_two_suffix = true →
     oc.comparePasses st.run_one_suffix st.run_two_suffix = false →
       (run st oc).1.status_run1 = "PASS" ∧
       (run st oc).1.status_run2 = "PASS" ∧
       (run st oc).1.status_compare = "FAIL") ∧
    (oc.runPasses st.run_one_suffix = true →
     oc.runPasses st.run_two_suffix = true →
     oc.comparePasses st.run_one_suffix st.run_two_suffix = true →
       (run st oc).1.status_run1 = "PASS" ∧
       (run st oc).1.status_run2 = "PASS" ∧
       (run st oc).1.status_compare = "PASS") := by
  cases c1 : oc.runPasses st.run_one_suffix <;>
    cases c2 : oc.runPasses st.run_two_suffix <;>
    cases cc : oc.comparePasses st.run_one_suffix st.run_two_suffix <;>
    simp_all [run]

/-- Witness for C2 at a concrete instance: with an all-pass oracle on the
sample state, `run` returns the conjunction of the three outcomes. -/
theorem run_result_and_statuses_witness :
    (run sampleState allPass).2.2 =
      (allPass.runPasses sampleState.run_one_suffix &&
       allPass.runPasses sampleState.run_two_suffix &&
       allPass.comparePasses sampleState.run_one_suffix
         sampleState.run_two_suffix) :=
  (run_result_and_statuses sampleState allPass rfl rfl rfl).1

/-- Claim C7: with `two_builds_for_sharedlib = false`,
`two_builds_for_model = false` and `runs_have_different_pe_settings =
false`, `run` issues no PE-file staging, no build-file staging and no
reload calls, makes exactly one execution call per phase (tagged with that
phase's suffix), and exactly one comparison call when both executions
pass. -/
theorem run_no_staging (st : TestState) (oc : RunOutcomes)
    (hsl : st.two_builds_for_sharedlib = false)
    (hm : st.two_builds_for_model = false)
    (hpe : st.runs_have_different_pe_settings = false)
    (hs : st.run_one_suffix ≠ st.run_two_suffix) :
    (∀ s, Event.stage_saved_pes_file s ∉ (run st oc).2.1) ∧
    (∀ s, Event.stage_saved_build_files s ∉ (run st oc).2.1) ∧
    (∀ b, Event.load_staged_xml_files b ∉ (run st oc).2.1) ∧
    (run st oc).2.1.count (Event.runPhase st.run_one_suffix) = 1 ∧
    (oc.runPasses st.run_one_suffix = true →
       (run st oc).2.1.count (Event.runPhase st.run_two_suffix) = 1) ∧
    (oc.runPasses st.run_one_suffix = true →
     oc.runPasses st.run_two_suffix = true →
       (run st oc).2.1.count
         (Event.component_compare_test st.run_one_suffix st.run_two_suffix)
         = 1) := by
  have hs' : st.run_two_suffix ≠ st.run_one_suffix := fun e => hs e.symm
  cases c1 : oc.runPasses st.run_one_suffix <;>
    cases c2 : oc.runPasses st.run_two_suffix <;>
    cases cc : oc.comparePasses st.run_one_suffix st.run_two_suffix <;>
    simp_all [run, _has_two_executables, List.count_append, List.count_cons]

/-- Witness for C7 at a concrete instance: on the sample state (all flags
false) with the all-pass oracle, exactly one execution call is tagged with
the phase-one suffix. -/
theorem run_no_staging_witness :
    (run sampleState allPass).2.1.count
      (Event.runPhase sampleState.run_one_suffix) = 1 :=
  (run_no_staging sampleState allPass rfl rfl rfl (by decide)).2.2.2.1

lemma isInfix_self_append (l t : List Event) : l <:+: l ++ t := ⟨[], t, rfl⟩

set_option maxHeartbeats 1600000 in
/-- Claim C8: whenever staging happens before a phase's execution, a reload
(`_load_staged_xml_files`) is issued before that execution with
`modified_pes` equal to `runs_have_different_pe_settings`: every reload in
the trace carries exactly that flag, and any staging tagged with a phase's
suffix implies that the reload immediately precedes that phase's
execution. With two executables and `runs_have_different_pe_settings =
false` (model-only, sharedlib-only, or both dual builds), only the build
files tagged with the phase's suffix are staged and the reload receives
`modified_pes = false`; with `runs_have_different_pe_settings = true` (any
dual-build flags), the PE file tagged with the phase's suffix is staged —
contiguously followed by any build-file staging, the reload with
`modified_pes = true`, and that phase's execution — and no reload receives
`modified_pes = false`. -/
theorem run_staging_reload (st : TestState) (oc : RunOutcomes)
    (h : st.run_one_suffix ≠ st.run_two_suffix) :
    (∀ b, Event.load_staged_xml_files b ∈ (run st oc).2.1 →
       b = st.runs_have_different_pe_settings) ∧
    ((Event.stage_saved_pes_file st.run_one_suffix ∈ (run st oc).2.1 ∨
      Event.stage_saved_build_files st.run_one_suffix ∈ (run st oc).2.1) →
       [Event.load_staged_xml_files st.runs_have_different_pe_settings,
        Event.runPhase st.run_one_suffix] <:+: (run st oc).2.1) ∧
    ((Event.stage_saved_pes_file st.run_two_suffix ∈ (run st oc).2.1 ∨
      Event.stage_saved_build_files st.run_two_suffix ∈ (run st oc).2.1) →
       [Event.load_staged_xml_files st.runs_have_different_pe_settings,
        Event.runPhase st.run_two_suffix] <:+: (run st oc).2.1) ∧
    (_has_two_executables st = true →
     st.runs_have_different_pe_settings = false →
       (run st oc).2.1.take 5 =
         [Event.run_common_setup, Event.run_one_setup,
          Event.stage_saved_build_files st.run_one_suffix,
          Event.load_staged_xml_files false,
          Event.runPhase st.run_one_suffix] ∧
       (oc.runPasses st.run_one_suffix = true →
         (run st oc).2.1.take 10 =
           [Event.run_common_setup, Event.run_one_setup,
            Event.stage_saved_build_files st.run_one_suffix,
            Event.load_staged_xml_files false,
            Event.runPhase st.run_one_suffix,
            Event.run_common_setup, Event.run_two_setup,
            Event.stage_saved_build_files st.run_two_suffix,
            Event.load_staged_xml_files false,
            Event.runPhase st.run_two_suffix]) ∧
       (∀ s, Event.stage_saved_pes_file s ∉ (run st oc).2.1) ∧
       Event.load_staged_xml_files true ∉ (run st oc).2.1) ∧
    (st.runs_have_different_pe_settings = true →
       (([Event.stage_saved_pes_file st.run_one_suffix] ++
         (if _has_two_executables st then
            [Event.stage_saved_build_files st.run_one_suffix] else []) ++
         [Event.load_staged_xml_files true,
          Event.runPhase st.run_one_suffix]) <:+: (run st oc).2.1) ∧
       (oc.runPasses st.run_one_suffix = true →
         (([Event.stage_saved_pes_file st.run_two_suffix] ++
           (if _has_two_executables st then
              [Event.stage_saved_build_files st.run_two_suffix] else []) ++
           [Event.load_staged_xml_files true,
            Event.runPhase st.run_two_suffix]) <:+: (run st oc).2.1)) ∧
       Event.load_staged_xml_files false ∉ (run st oc).2.1) ∧
    (st.runs_have_different_pe_settings = true →
     st.two_builds_for_sharedlib = false →
     st.two_builds_for_model = false →
       (run st oc).2.1.take 5 =
         [Event.run_common_setup, Event.run_one_setup,
          Event.stage_saved_pes_file st.run_one_suffix,
          Event.load_staged_xml_files true,
          Event.runPhase st.run_one_suffix] ∧
       (oc.runPasses st.run_one_suffix = true →
         (run st oc).2.1.take 10 =
           [Event.run_common_setup, Event.run_one_setup,
            Event.stage_saved_pes_file st.run_one_suffix,
            Event.load_staged_xml_files true,
            Event.runPhase st.run_one_suffix,
            Event.run_common_setup, Event.run_two_setup,
            Event.stage_saved_pes_file st.run_two_suffix,
            Event.load_staged_xml_files true,
            Event.runPhase st.run_two_suffix]) ∧
       (∀ s, Event.stage_saved_build_files s ∉ (run st oc).2.1) ∧
       Event.load_staged_xml_files false ∉ (run st oc).2.1) := by
  have h' : st.run_two_suffix ≠ st.run_one_suffix := fun e => h e.symm
  refine ⟨?_, ?_, ?_, ?_, ?_, ?_⟩
  · intro b hb
    cases c1 : oc.runPasses st.run_one_suffix <;>
      cases c2 : oc.runPasses st.run_two_suffix <;>
      cases cc : oc.comparePasses st.run_one_suffix st.run_two_suffix <;>
      cases hpe : st.runs_have_different_pe_settings <;>
      cases hsl : st.two_builds_for_sharedlib <;>
      cases hm : st.two_builds_for_model <;>
      simp_all [run, _has_two_executables]
  · intro hstag
    cases c1 : oc.runPasses st.run_one_suffix <;>
      cases c2 : oc.runPasses st.run_two_suffix <;>
      cases cc : oc.comparePasses st.run_one_suffix st.run_two_suffix <;>
      cases hpe : st.runs_have_different_pe_settings <;>
      cases hsl : st.two_builds_for_sharedlib <;>
      cases hm : st.two_builds_for_model <;>
      simp_all [run, _has_two_executables] <;>
      (repeat
        first
        | exact isInfix_self_append _ _
        | apply List.infix_cons)
  · intro hstag
    cases c1 : oc.runPasses st.run_one_suffix <;>
      cases c2 : oc.runPasses st.run_two_suffix <;>
      cases cc : oc.comparePasses st.run_one_suffix st.run_two_suffix <;>
      cases hpe : st.runs_have_different_pe_settings <;>
      cases hsl : st.two_builds_for_sharedlib <;>
      cases hm : st.two_builds_for_model <;>
      simp_all [run, _has_two_executables] <;>
      (repeat
        first
        | exact isInfix_self_append _ _
        | apply List.infix_cons)
  · intro hte hpe2
    cases c1 : oc.runPasses st.run_one_suffix <;>
      cases c2 : oc.runPasses st.run_two_suffix <;>
      cases cc : oc.comparePasses st.run_one_suffix st.run_two_suffix <;>
      cases hsl : st.two_builds_for_sharedlib <;>
      cases hm : st.two_builds_for_model <;>
      simp_all [run, _has_two_executables]
  · intro hpe2
    refine ⟨?_, ?_, ?_⟩
    · cases c1 : oc.runPasses st.run_one_suffix <;>
        cases c2 : oc.runPasses st.run_two_suffix <;>
        cases cc : oc.comparePasses st.run_one_suffix st.run_two_suffix <;>
        cases hsl : st.two_builds_for_sharedlib <;>
        cases hm : st.two_builds_for_model <;>
        simp_all [run, _has_two_executables] <;>
        (repeat
          first
          | exact isInfix_self_append _ _
          | apply List.infix_cons)
    · intro hp1
      cases c2 : oc.runPasses st.run_two_suffix <;>
        cases cc : oc.comparePasses st.run_one_suffix st.run_two_suffix <;>
        cases hsl : st.two_builds_for_sharedlib <;>
        cases hm : st.two_builds_for_model <;>
        simp_all [run, _has_two_executables] <;>
        (repeat
          first
          | exact isInfix_self_append _ _
          | apply List.infix_cons)
    · cases c1 : oc.runPasses st.run_one_suffix <;>
        cases c2 : oc.runPasses st.run_two_suffix <;>
        cases cc : oc.comparePasses st.run_one_suffix st.run_two_suffix <;>
        cases hsl : st.two_builds_for_sharedlib <;>
        cases hm : st.two_builds_for_model <;>
        simp_all [run, _has_two_executables]
  · intro hpe2 hsl2 hm2
    cases c1 : oc.runPasses st.run_one_suffix <;>
      cases c2 : oc.runPasses st.run_two_suffix <;>
      cases cc : oc.comparePasses st.run_one_suffix st.run_two_suffix <;>
      simp_all [run, _has_two_executables]

/-- Witness for C8 at a concrete instance: with `two_builds_for_model`
true, the first five calls of `run` are the common setup, the phase-one
setup, the build-file staging tagged "base", the reload with
`modified_pes = false`, and the phase-one execution. -/
theorem run_staging_reload_witness :
    (run { sampleState with two_builds_for_model := true } allPass).2.1.take 5
      = [Event.run_common_setup, Event.run_one_setup,
         Event.stage_saved_build_files "base",
         Event.load_staged_xml_files false,
         Event.runPhase "base"] :=
  ((run_staging_reload { sampleState with two_builds_for_model := true }
      allPass (by decide)).2.2.2.1 rfl rfl).1

/-- Predicate picking out the underlying `SystemTestsCommon.build`
invocations in a trace. -/
def isCommonBuild : Event → Bool
  | .common_build _ _ => true
  | _ => false

lemma pre_build_restore_events (st : TestState) (env : BuildEnv)
    (fs : FsState) (e : Event)
    (he : e ∈ (_pre_build_restore_or_save_xml_files st env fs).2) :
    e = Event.restore_or_save_xml_file "env_mach_pes" ORIGINAL_SUFFIX ∨
    e = Event.restore_or_save_xml_file "env_build" ORIGINAL_SUFFIX ∨
    e = Event.read_xml := by
  cases hpe : st.runs_have_different_pe_settings <;>
    cases hsl : st.two_builds_for_sharedlib <;>
    cases hm : st.two_builds_for_model <;>
    by_cases hr1 : env.restoreReplaced "env_mach_pes" <;>
    by_cases hr2 : env.restoreReplaced "env_build" <;>
    simp_all [_pre_build_restore_or_save_xml_files, _has_two_executables] <;>
    tauto

lemma create_pe_files_events (st : TestState) (fs : FsState) (e : Event)
    (he : e ∈ (_create_pe_files st fs).2) :
    e = Event.adjust_pes_for_run_one ∨ e = Event.adjust_pes_for_run_two ∨
    e = Event.flush ∨
    e = Event.save_xml_file "env_mach_pes" st.run_one_suffix ∨
    e = Event.save_xml_file "env_mach_pes" st.run_two_suffix := by
  by_cases h1 : fs.savedExists "env_mach_pes" st.run_one_suffix <;>
    by_cases h2 : fs.savedExists "env_mach_pes" st.run_two_suffix <;>
    by_cases hss : st.run_two_suffix = st.run_one_suffix <;>
    simp_all [_create_pe_files, saveXmlFileFs] <;>
    tauto

lemma do_two_builds_events (st : TestState) (sharedlib_only model_only : Bool)
    (e : Event) (he : e ∈ _do_two_builds st sharedlib_only model_only) :
    e = Event.stage_saved_pes_file st.run_one_suffix ∨
    e = Event.stage_saved_pes_file st.run_two_suffix ∨
    e = Event.load_staged_xml_files true ∨
    e = Event.build_one_setup ∨ e = Event.build_two_setup ∨
    e = Event.common_build sharedlib_only model_only ∨
    e = Event.save_build_files st.run_one_suffix ∨
    e = Event.save_build_files st.run_two_suffix := by
  cases hpe : st.runs_have_different_pe_settings <;>
    simp_all [_do_two_builds] <;> tauto

/-- Claim C4 is refuted by the code: with both scope flags set,
`_needs_two_builds` takes its `elif sharedlib_only` branch before the final
`else`, so the `raise ValueError` (invalid scope) is unreachable and
`build` completes as if it had been called sharedlib-only. -/
theorem needs_two_builds_both_flags_no_error (st : TestState)
    (env : BuildEnv) (fs : FsState) :
    _needs_two_builds st true true = Except.ok st.two_builds_for_sharedlib ∧
    ∃ p, build st env fs true true = Except.ok p := by
  constructor
  · simp [_needs_two_builds]
  · cases hsl : st.two_builds_for_sharedlib <;>
      simp [build, _needs_two_builds, hsl]

/-- Claim C5: for the valid scope combinations, the two-build decision of
`_needs_two_builds` equals ((no scope restriction) and (two builds for
sharedlib or model)) or (sharedlib-only and two builds for sharedlib) or
(model-only and two builds for model); and `build` performs two underlying
`SystemTestsCommon.build` invocations when the decision is true, exactly
one otherwise. -/
theorem needs_two_builds_formula (st : TestState) (env : BuildEnv)
    (fs : FsState) (sharedlib_only model_only : Bool)
    (h : ¬(sharedlib_only = true ∧ model_only = true)) :
    _needs_two_builds st sharedlib_only model_only =
      Except.ok (((!sharedlib_only && !model_only) &&
                    (st.two_builds_for_sharedlib || st.two_builds_for_model))
                 || (sharedlib_only && st.two_builds_for_sharedlib)
                 || (model_only && st.two_builds_for_model)) ∧
    (build st env fs sharedlib_only model_only).map
        (fun p => p.2.countP isCommonBuild) =
      Except.ok
        (if (((!sharedlib_only && !model_only) &&
                (st.two_builds_for_sharedlib || st.two_builds_for_model))
             || (sharedlib_only && st.two_builds_for_sharedlib)
             || (model_only && st.two_builds_for_model)) = true
         then 2 else 1) := by
  have hr : (_pre_build_restore_or_save_xml_files st env fs).2.countP
      isCommonBuild = 0 := by
    apply List.countP_eq_zero.mpr
    intro e he
    rcases pre_build_restore_events st env fs e he with rfl | rfl | rfl <;>
      simp [isCommonBuild]
  have hcp : ∀ fs1 : FsState,
      (_create_pe_files st fs1).2.countP isCommonBuild = 0 := by
    intro fs1
    apply List.countP_eq_zero.mpr
    intro e he
    rcases create_pe_files_events st fs1 e he with rfl | rfl | rfl | rfl | rfl <;>
      simp [isCommonBuild]
  constructor
  · cases hso : sharedlib_only <;> cases hmo : model_only <;>
      simp_all [_needs_two_builds]
  · cases hso : sharedlib_only <;> cases hmo : model_only <;>
      cases hsl : st.two_builds_for_sharedlib <;>
      cases hm : st.two_builds_for_model <;>
      cases hpe : st.runs_have_different_pe_settings <;>
      try simp [hso, hmo] at h
    all_goals
      simp [build, _needs_two_builds, _do_two_builds, Except.map,
        isCommonBuild, List.countP_append, List.countP_cons,
        hsl, hm, hpe, hr, hcp]

/-- A build environment in which no restore replaces live state. -/
def noRestore : BuildEnv := ⟨fun _ => false⟩

/-- A snapshot store in which no saved file exists. -/
def emptyFs : FsState := ⟨fun _ _ => false⟩

/-- Witness for C5 at a concrete instance: with `two_builds_for_model` and
no scope restriction, the two-build decision is true. -/
theorem needs_two_builds_formula_witness :
    _needs_two_builds { sampleState with two_builds_for_model := true }
      false false = Except.ok true :=
  (needs_two_builds_formula { sampleState with two_builds_for_model := true }
    noRestore emptyFs false false (by simp)).1

/-- Claim C3: construction fails with a configuration error exactly when
the validated second-phase suffix equals `'base'` (the fixed first-phase
suffix) or the reserved `'original'` tag; otherwise it succeeds with all
three statuses `"NOT RUN"`. -/
theorem init_validation (sl m pe : Bool) (s d1 d2 : String) :
    ((pyRstrip s = "base" ∨ pyRstrip s = ORIGINAL_SUFFIX) →
       ∃ e, init sl m pe s d1 d2 = Except.error e) ∧
    (pyRstrip s ≠ "base" → pyRstrip s ≠ ORIGINAL_SUFFIX →
       ∃ st, init sl m pe s d1 d2 = Except.ok st ∧
         st.status_run1 = "NOT RUN" ∧ st.status_run2 = "NOT RUN" ∧
         st.status_compare = "NOT RUN") := by
  constructor
  · rintro (h | h)
    · exact ⟨.equalSuffixes, by simp [init, h]⟩
    · by_cases h1 : pyRstrip s = "base"
      · exact ⟨.equalSuffixes, by simp [init, h1]⟩
      · exact ⟨.runTwoIsOriginal, by simp [init, h1, h, ORIGINAL_SUFFIX]⟩
  · intro h1 h2
    have h2' : pyRstrip s ≠ "original" := h2
    exact ⟨⟨sl, m, pe, "base", pyRstrip s, d1, d2,
            "NOT RUN", "NOT RUN", "NOT RUN"⟩,
      by simp [init, h1, h2', ORIGINAL_SUFFIX], rfl, rfl, rfl⟩

/-- Witness for C3 at concrete inputs: `'base'` as second-phase suffix is
rejected, and `'test'` is accepted with all statuses `"NOT RUN"`. -/
theorem init_validation_witness :
    (∃ e, init false false false "base" "" "" = Except.error e) ∧
    (∃ st, init false false false "test" "" "" = Except.ok st ∧
       st.status_run1 = "NOT RUN" ∧ st.status_run2 = "NOT RUN" ∧
       st.status_compare = "NOT RUN") :=
  ⟨(init_validation false false false "base" "" "").1 (Or.inl (by decide)),
   (init_validation false false false "test" "" "").2 (by decide) (by decide)⟩

/-- Claim C10: the constructor right-strips the supplied second-phase
suffix before validating and storing it: any input whose right-stripped
value is `'base'` or `'original'` (such as `'base '` or an
`'original'`-plus-newline) is rejected, and on success the stored
second-phase suffix is the right-stripped input. -/
theorem init_rstrip (sl m pe : Bool) (d1 d2 : String) :
    (∀ s, (pyRstrip s = "base" ∨ pyRstrip s = ORIGINAL_SUFFIX) →
       ∃ e, init sl m pe s d1 d2 = Except.error e) ∧
    (∃ e, init sl m pe "base " d1 d2 = Except.error e) ∧
    (∃ e, init sl m pe "original\n" d1 d2 = Except.error e) ∧
    (∀ s st, init sl m pe s d1 d2 = Except.ok st →
       st.run_two_suffix = pyRstrip s) := by
  refine ⟨?_, ?_, ?_, ?_⟩
  · rintro s (h | h)
    · exact ⟨.equalSuffixes, by simp [init, h]⟩
    · by_cases h1 : pyRstrip s = "base"
      · exact ⟨.equalSuffixes, by simp [init, h1]⟩
      · exact ⟨.runTwoIsOriginal, by simp [init, h1, h, ORIGINAL_SUFFIX]⟩
  · exact ⟨.equalSuffixes, rfl⟩
  · exact ⟨.runTwoIsOriginal, rfl⟩
  · intro s st hok
    by_cases h1 : pyRstrip s = "base" <;>
      by_cases h2 : pyRstrip s = ORIGINAL_SUFFIX <;>
      simp_all [init, ORIGINAL_SUFFIX] <;>
      simp [← hok]

/-- Witness for C10 at concrete inputs: `'base '` (trailing blank) is
rejected, and for the accepted input `'test '` the stored suffix is the
right-stripped value `'test'`. -/
theorem init_rstrip_witness :
    (∃ e, init false false false "base " "" "" = Except.error e) ∧
    (∀ st, init false false false "test " "" "" = Except.ok st →
       st.run_two_suffix = pyRstrip "test ") :=
  ⟨(init_rstrip false false false "" "").2.1,
   fun st => (init_rstrip false false false "" "").2.2.2 "test " st⟩

/-- Claim C6: running `_create_pe_files` twice in succession performs each
PE-adjustment hook at most once; the second call is a no-op; and for each
run whose tagged `env_mach_pes` snapshot already exists, the step performs
no adjustment and no new snapshot for that suffix (and does nothing at all
when both exist). -/
theorem create_pe_files_idempotent (st : TestState) (fs : FsState) :
    (_create_pe_files st (_create_pe_files st fs).1).2 = [] ∧
    ((_create_pe_files st fs).2 ++
       (_create_pe_files st (_create_pe_files st fs).1).2).count
        Event.adjust_pes_for_run_one ≤ 1 ∧
    ((_create_pe_files st fs).2 ++
       (_create_pe_files st (_create_pe_files st fs).1).2).count
        Event.adjust_pes_for_run_two ≤ 1 ∧
    (fs.savedExists "env_mach_pes" st.run_one_suffix = true →
       Event.adjust_pes_for_run_one ∉ (_create_pe_files st fs).2 ∧
       Event.save_xml_file "env_mach_pes" st.run_one_suffix ∉
         (_create_pe_files st fs).2) ∧
    (fs.savedExists "env_mach_pes" st.run_two_suffix = true →
       Event.adjust_pes_for_run_two ∉ (_create_pe_files st fs).2 ∧
       Event.save_xml_file "env_mach_pes" st.run_two_suffix ∉
         (_create_pe_files st fs).2) ∧
    (fs.savedExists "env_mach_pes" st.run_one_suffix = true →
     fs.savedExists "env_mach_pes" st.run_two_suffix = true →
       (_create_pe_files st fs).2 = []) := by
  by_cases h1 : fs.savedExists "env_mach_pes" st.run_one_suffix <;>
    by_cases h2 : fs.savedExists "env_mach_pes" st.run_two_suffix <;>
    by_cases hss : st.run_two_suffix = st.run_one_suffix <;>
    simp_all [_create_pe_files, saveXmlFileFs, List.count_append,
      List.count_cons] <;>
    exact fun e => hss e.symm

/-- Witness for C6 at a concrete instance: starting from an empty snapshot
store, the second invocation of `_create_pe_files` produces no calls. -/
theorem create_pe_files_idempotent_witness :
    (_create_pe_files sampleState (_create_pe_files sampleState emptyFs).1).2
      = [] :=
  (create_pe_files_idempotent sampleState emptyFs).1

lemma build_eq (st : TestState) (env : BuildEnv) (fs : FsState)
    (sharedlib_only model_only : Bool) (b : Bool)
    (hb : _needs_two_builds st sharedlib_only model_only = Except.ok b) :
    build st env fs sharedlib_only model_only = Except.ok
      ((if st.runs_have_different_pe_settings then
          _create_pe_files st (_pre_build_restore_or_save_xml_files st env fs).1
        else ((_pre_build_restore_or_save_xml_files st env fs).1, [])).1,
       (_pre_build_restore_or_save_xml_files st env fs).2 ++
       (if st.runs_have_different_pe_settings then
          (_create_pe_files st
            (_pre_build_restore_or_save_xml_files st env fs).1).2
        else []) ++
       [Event.pre_build] ++
       (if b then _do_two_builds st sharedlib_only model_only
        else (if st.runs_have_different_pe_settings then
                [Event.stage_saved_pes_file st.run_one_suffix,
                 Event.load_staged_xml_files true] else []) ++
             [Event.common_build sharedlib_only model_only])) := by
  cases hpe : st.runs_have_different_pe_settings <;> cases b <;>
    simp [build, hb, hpe]

/-- Claim C9: in every completed `build` invocation, the `_pre_build` hook
is invoked exactly once, after the restore-or-save step and the optional
PE-file creation and before any underlying `SystemTestsCommon.build`
invocation, whether one or two build passes follow. -/
theorem build_pre_build_once (st : TestState) (env : BuildEnv) (fs : FsState)
    (sharedlib_only model_only : Bool) (fs2 : FsState) (tr : List Event)
    (htr : build st env fs sharedlib_only model_only = Except.ok (fs2, tr)) :
    ∃ A B, tr = A ++ Event.pre_build :: B ∧
      Event.pre_build ∉ A ∧ Event.pre_build ∉ B ∧
      (∀ a b, Event.common_build a b ∉ A) ∧
      (∀ f s, Event.restore_or_save_xml_file f s ∉ B) ∧
      Event.read_xml ∉ B ∧
      Event.adjust_pes_for_run_one ∉ B ∧
      Event.adjust_pes_for_run_two ∉ B ∧
      Event.flush ∉ B ∧
      (∀ f s, Event.save_xml_file f s ∉ B) := by
  obtain ⟨b, hb⟩ : ∃ b, _needs_two_builds st sharedlib_only model_only =
      Except.ok b := by
    cases hso : sharedlib_only <;> cases hmo : model_only <;>
      simp [_needs_two_builds]
  have heq := build_eq st env fs sharedlib_only model_only b hb
  rw [htr] at heq
  simp only [Except.ok.injEq, Prod.mk.injEq] at heq
  obtain ⟨-, htr2⟩ := heq
  have hA : ∀ e, e ∈ (_pre_build_restore_or_save_xml_files st env fs).2 ++
      (if st.runs_have_different_pe_settings then
         (_create_pe_files st
           (_pre_build_restore_or_save_xml_files st env fs).1).2
       else []) →
      e = Event.restore_or_save_xml_file "env_mach_pes" ORIGINAL_SUFFIX ∨
      e = Event.restore_or_save_xml_file "env_build" ORIGINAL_SUFFIX ∨
      e = Event.read_xml ∨
      e = Event.adjust_pes_for_run_one ∨ e = Event.adjust_pes_for_run_two ∨
      e = Event.flush ∨
      e = Event.save_xml_file "env_mach_pes" st.run_one_suffix ∨
      e = Event.save_xml_file "env_mach_pes" st.run_two_suffix := by
    intro e he
    rcases List.mem_append.mp he with hx | hy
    · rcases pre_build_restore_events st env fs e hx with h | h | h <;> tauto
    · cases hpe : st.runs_have_different_pe_settings <;> simp [hpe] at hy
      rcases create_pe_files_events st _ e hy with h | h | h | h | h <;> tauto
  have hB : ∀ e, e ∈ (if b then _do_two_builds st sharedlib_only model_only
       else (if st.runs_have_different_pe_settings then
               [Event.stage_saved_pes_file st.run_one_suffix,
                Event.load_staged_xml_files true] else []) ++
            [Event.common_build sharedlib_only model_only]) →
      e = Event.stage_saved_pes_file st.run_one_suffix ∨
      e = Event.stage_saved_pes_file st.run_two_suffix ∨
      e = Event.load_staged_xml_files true ∨
      e = Event.build_one_setup ∨ e = Event.build_two_setup ∨
      e = Event.common_build sharedlib_only model_only ∨
      e = Event.save_build_files st.run_one_suffix ∨
      e = Event.save_build_files st.run_two_suffix := by
    intro e he
    cases b
    · cases hpe : st.runs_have_different_pe_settings <;>
        simp [hpe] at he <;> tauto
    · simp at he
      exact do_two_builds_events st _ _ _ he
  refine ⟨(_pre_build_restore_or_save_xml_files st env fs).2 ++
      (if st.runs_have_different_pe_settings then
         (_create_pe_files st
           (_pre_build_restore_or_save_xml_files st env fs).1).2
       else []),
      (if b then _do_two_builds st sharedlib_only model_only
       else (if st.runs_have_different_pe_settings then
               [Event.stage_saved_pes_file st.run_one_suffix,
                Event.load_staged_xml_files true] else []) ++
            [Event.common_build sharedlib_only model_only]),
      ?_, ?_, ?_, ?_, ?_, ?_, ?_, ?_, ?_, ?_⟩
  · rw [htr2]; simp [List.append_assoc]
  · intro hmem
    rcases hA _ hmem with h | h | h | h | h | h | h | h <;> simp at h
  · intro hmem
    rcases hB _ hmem with h | h | h | h | h | h | h | h <;> simp at h
  · intro a b' hmem
    rcases hA _ hmem with h | h | h | h | h | h | h | h <;> simp at h
  · intro f s hmem
    rcases hB _ hmem with h | h | h | h | h | h | h | h <;> simp at h
  · intro hmem
    rcases hB _ hmem with h | h | h | h | h | h | h | h <;> simp at h
  · intro hmem
    rcases hB _ hmem with h | h | h | h | h | h | h | h <;> simp at h
  · intro hmem
    rcases hB _ hmem with h | h | h | h | h | h | h | h <;> simp at h
  · intro hmem
    rcases hB _ hmem with h | h | h | h | h | h | h | h <;> simp at h
  · intro f s hmem
    rcases hB _ hmem with h | h | h | h | h | h | h | h <;> simp at h

/-- Witness for C9 at a concrete instance: on the sample state with empty
snapshot store and no scope restriction, the build trace is the
`_pre_build` hook followed by the single underlying build. -/
theorem build_pre_build_once_witness :
    ∃ A B, ([Event.pre_build, Event.common_build false false] : List Event)
        = A ++ Event.pre_build :: B ∧
      Event.pre_build ∉ A ∧ Event.pre_build ∉ B ∧
      (∀ a b, Event.common_build a b ∉ A) ∧
      (∀ f s, Event.restore_or_save_xml_file f s ∉ B) ∧
      Event.read_xml ∉ B ∧
      Event.adjust_pes_for_run_one ∉ B ∧
      Event.adjust_pes_for_run_two ∉ B ∧
      Event.flush ∉ B ∧
      (∀ f s, Event.save_xml_file f s ∉ B) :=
  build_pre_build_once sampleState noRestore emptyFs false false
    emptyFs [Event.pre_build, Event.common_build false false] rfl

end CompareTwo
